import Mathlib

/-!
Shallow embedding of the whatsmeow session layer (device pairing, connection
lifecycle, frame dispatch and event fan-out) and proofs about its behaviour.

Byte strings are modelled as `List Nat`.  External collaborators (protobuf
marshalling, HMAC-SHA256, the curve signature scheme, the SQL device store)
are abstracted as function parameters or injected success flags carried in an
environment record; the control flow of the embedded functions follows the Go
source line by line.
-/

namespace Whatsmeow

/-- Raw byte strings. -/
abbrev Bytes := List Nat

/-- Encryption type enum from the waAdv protobuf (`E2EE` is the proto default,
`HOSTED` is the hosted-account variant tested by the pairing flow). -/
inductive ADVEncryptionType where
  | E2EE
  | HOSTED
  deriving DecidableEq, Repr

/-- `ADVSignedDeviceIdentityHMAC` protobuf container: `Details`, `HMAC` and the
optional `AccountType` field. -/
structure ADVSignedDeviceIdentityHMAC where
  details : Bytes
  hmac : Bytes
  accountType : Option ADVEncryptionType
  deriving DecidableEq, Repr

/-- Proto getter `GetAccountType`: the zero value `E2EE` when the optional
field is unset. -/
def ADVSignedDeviceIdentityHMAC.getAccountType (c : ADVSignedDeviceIdentityHMAC) :
    ADVEncryptionType :=
  c.accountType.getD .E2EE

/-- `ADVSignedDeviceIdentity` protobuf message.  A missing (nil) bytes field is
modelled as the empty list, matching Go where `len(nil) = 0`. -/
structure ADVSignedDeviceIdentity where
  details : Bytes
  accountSignatureKey : Bytes
  accountSignature : Bytes
  deviceSignature : Bytes
  deriving DecidableEq, Repr

/-- `ADVDeviceIdentity` protobuf message (the fields the pairing flow reads:
the optional `DeviceType` and `KeyIndex`). -/
structure ADVDeviceIdentity where
  deviceType : Option ADVEncryptionType
  keyIndex : Option Nat
  deriving DecidableEq, Repr

/-- Proto getter `GetDeviceType`. -/
def ADVDeviceIdentity.getDeviceType (d : ADVDeviceIdentity) : ADVEncryptionType :=
  d.deviceType.getD .E2EE

/-- Proto getter `GetKeyIndex` (zero value 0 when unset). -/
def ADVDeviceIdentity.getKeyIndex (d : ADVDeviceIdentity) : Nat :=
  d.keyIndex.getD 0

/-- `AdvAccountSignaturePrefix = []byte{6, 0}` from pair.go. -/
def AdvAccountSignaturePrefixBytes : Bytes := [6, 0]

/-- `AdvDeviceSignaturePrefix = []byte{6, 1}` from pair.go. -/
def AdvDeviceSignaturePrefixBytes : Bytes := [6, 1]

/-- `AdvHostedAccountSignaturePrefix = []byte{6, 5}` from pair.go. -/
def AdvHostedAccountSignaturePrefixBytes : Bytes := [6, 5]

/-- `AdvHostedDeviceSignaturePrefix = []byte{6, 6}` from pair.go. -/
def AdvHostedDeviceSignaturePrefixBytes : Bytes := [6, 6]

/-- `concatBytes` from pair.go: copies the given byte slices into one output
buffer in order. -/
def concatBytes (data : List Bytes) : Bytes := data.flatten

/-- JIDs as used by the pairing flow: user, server and device index. -/
structure JID where
  user : String
  server : String
  device : Nat
  deriving DecidableEq, Repr

/-- Key under which an identity record is stored for a JID
(`jid.SignalAddress().String()`); an injective encoding of user and device. -/
def JID.signalAddressString (j : JID) : String :=
  j.user ++ ":" ++ toString j.device

/-- Result of `handlePair`: `ok` for the nil return, one constructor per typed
error the Go function can return (`PairProtoError`, the two `PairDatabaseError`
messages, `ErrPairInvalidDeviceIdentityHMAC`, `ErrPairInvalidDeviceSignature`,
`ErrPairRejectedLocally`, and the wrapped send failure). -/
inductive PairResult where
  | ok
  | protoError (msg : String)
  | invalidDeviceIdentityHMAC
  | invalidDeviceSignature
  | rejectedLocally
  | databaseError (msg : String)
  | sendConfirmError
  deriving DecidableEq, Repr

/-- Persisted device-store state the pairing flow touches.

Modelled from the spec: the `DeviceStore` implementation (`Store.Save`,
`Store.Delete`, `Store.Identities.PutIdentity`) lives outside the provided
sources; per the spec, `Save` persists the paired device record, `Delete`
removes it, and `PutIdentity` stores an identity record under a string key. -/
structure DeviceStoreState where
  deviceRecord : Bool
  identities : List (String × Bytes)
  deriving DecidableEq, Repr

/-- Externally observable side effects of `handlePair`, in program order:
pairing error nodes sent to the server, store operations (with their injected
success flag), the LID-PN mapping write, the fingerprint-migration block, the
expected-disconnect mark, and the final `pair-device-sign` send attempt. -/
inductive PairStep where
  | sentPairError (code : Nat) (text : String)
  | storeSave (ok : Bool)
  | storeLIDPNMapping
  | fingerprintMigration
  | putIdentity (key : String) (value : Bytes) (ok : Bool)
  | storeDelete
  | expectDisconnectMark
  | sentPairDeviceSign (keyIndex : Nat) (content : Bytes) (ok : Bool)
  deriving DecidableEq, Repr

/-- Environment of one `handlePair` call: the client's stored keys, the
abstracted crypto and protobuf primitives, the optional pre-pair callback, the
injected outcomes of the fallible external calls, and the call arguments. -/
structure PairEnv where
  advSecretKey : Bytes
  identityPub : Bytes
  identityPriv : Bytes
  hmacSHA256 : Bytes → Bytes → Bytes
  eccVerify : Bytes → Bytes → Bytes → Bool
  eccSign : Bytes → Bytes → Bytes
  parseHMACContainer : Bytes → Option ADVSignedDeviceIdentityHMAC
  parseSignedIdentity : Bytes → Option ADVSignedDeviceIdentity
  parseIdentityDetails : Bytes → Option ADVDeviceIdentity
  marshalIdentity : ADVSignedDeviceIdentity → Option Bytes
  prePairCallback : Option (JID → String → String → Bool)
  hasSQLStoreContainer : Bool
  saveOk : Bool
  putIdentityOk : Bool
  sendConfirmOk : Bool
  deviceIdentityBytes : Bytes
  reqID : String
  businessName : String
  platform : String
  jid : JID
  lid : JID

/-- Input of the HMAC-SHA256 recomputation in `handlePair`: the streamed
`h.Write` calls feed the hosted-account prefix exactly when the container's
account type is `HOSTED`, then the `Details` bytes. -/
def pairHMACInput (c : ADVSignedDeviceIdentityHMAC) : Bytes :=
  (if c.getAccountType = .HOSTED then AdvHostedAccountSignaturePrefixBytes else []) ++ c.details

/-- `verifyAccountSignature` from pair.go: reject unless the embedded key is
exactly 32 bytes and the signature exactly 64 bytes, then verify the message
`prefix ‖ Details ‖ local identity public key` (hosted-account prefix when
`isHosted`) under the embedded key and signature. -/
def verifyAccountSignature (eccVerify : Bytes → Bytes → Bytes → Bool)
    (deviceIdentity : ADVSignedDeviceIdentity) (ikpPub : Bytes) (isHosted : Bool) : Bool :=
  if deviceIdentity.accountSignatureKey.length ≠ 32 ∨ deviceIdentity.accountSignature.length ≠ 64 then
    false
  else
    let pfx := if isHosted then AdvHostedAccountSignaturePrefixBytes else AdvAccountSignaturePrefixBytes
    let message := concatBytes [pfx, deviceIdentity.details, ikpPub]
    eccVerify deviceIdentity.accountSignatureKey message deviceIdentity.accountSignature

/-- `generateDeviceSignature` from pair.go: sign
`AdvDeviceSignaturePrefix ‖ Details ‖ identity pub ‖ AccountSignatureKey`
with the local identity private key. -/
def generateDeviceSignature (eccSign : Bytes → Bytes → Bytes)
    (deviceIdentity : ADVSignedDeviceIdentity) (ikpPub ikpPriv : Bytes) : Bytes :=
  eccSign ikpPriv
    (concatBytes [AdvDeviceSignaturePrefixBytes, deviceIdentity.details, ikpPub,
      deviceIdentity.accountSignatureKey])

/-- Pre-pair veto check in `handlePair`:
`cli.PrePairCallback != nil && !cli.PrePairCallback(jid, platform, businessName)`. -/
def prePairRejects (env : PairEnv) : Bool :=
  match env.prePairCallback with
  | some cb => !cb env.jid env.platform env.businessName
  | none => false

/-- `handlePair` from pair.go, as a pure function from the environment and the
initial persisted store state to the returned error, the final store state and
the ordered side-effect trace.  `none` models the Go panic of the unchecked
slice-to-`*[32]byte` conversion of `AccountSignatureKey` (line 170), which is
the only unguarded cast in the function; every other step is total.
In-memory-only mutations (`cli.Store.ID`, `cli.Store.Account`, ...) are not
part of `DeviceStoreState`, which tracks persisted state. -/
def handlePair (env : PairEnv) (store0 : DeviceStoreState) :
    Option (PairResult × DeviceStoreState × List PairStep) :=
  match env.parseHMACContainer env.deviceIdentityBytes with
  | none =>
      some (.protoError "failed to parse device identity container in pair success message",
        store0, [.sentPairError 500 "internal-error"])
  | some deviceIdentityContainer =>
    if env.hmacSHA256 env.advSecretKey (pairHMACInput deviceIdentityContainer) ≠
        deviceIdentityContainer.hmac then
      some (.invalidDeviceIdentityHMAC, store0, [.sentPairError 401 "hmac-mismatch"])
    else
      match env.parseSignedIdentity deviceIdentityContainer.details with
      | none =>
          some (.protoError "failed to parse signed device identity in pair success message",
            store0, [.sentPairError 500 "internal-error"])
      | some deviceIdentity0 =>
        match env.parseIdentityDetails deviceIdentity0.details with
        | none =>
            some (.protoError "failed to parse device identity details in pair success message",
              store0, [.sentPairError 500 "internal-error"])
        | some deviceIdentityDetails =>
          if !verifyAccountSignature env.eccVerify deviceIdentity0 env.identityPub
              (deviceIdentityDetails.getDeviceType = .HOSTED) then
            some (.invalidDeviceSignature, store0, [.sentPairError 401 "signature-mismatch"])
          else
            let deviceIdentity1 := { deviceIdentity0 with
              deviceSignature :=
                generateDeviceSignature env.eccSign deviceIdentity0 env.identityPub env.identityPriv }
            if prePairRejects env then
              some (.rejectedLocally, store0, [.sentPairError 500 "internal-error"])
            else
              if deviceIdentity1.accountSignatureKey.length = 32 then
                let mainDeviceLID : JID := { env.lid with device := 0 }
                let mainDeviceIdentity := deviceIdentity1.accountSignatureKey
                let deviceIdentity2 := { deviceIdentity1 with accountSignatureKey := [] }
                match env.marshalIdentity deviceIdentity2 with
                | none =>
                    some (.protoError "failed to marshal self-signed device identity",
                      store0, [.sentPairError 500 "internal-error"])
                | some selfSignedDeviceIdentity =>
                  if !env.saveOk then
                    some (.databaseError "failed to save device store",
                      store0, [.storeSave false, .sentPairError 500 "internal-error"])
                  else
                    let store1 := { store0 with deviceRecord := true }
                    let trace1 := [PairStep.storeSave true, PairStep.storeLIDPNMapping] ++
                      (if env.hasSQLStoreContainer then [PairStep.fingerprintMigration] else [])
                    if !env.putIdentityOk then
                      some (.databaseError "failed to store main device identity",
                        { store1 with deviceRecord := false },
                        trace1 ++ [.putIdentity mainDeviceLID.signalAddressString
                            mainDeviceIdentity false, .storeDelete,
                          .sentPairError 500 "internal-error"])
                    else
                      let store2 := { store1 with identities := store1.identities ++
                        [(mainDeviceLID.signalAddressString, mainDeviceIdentity)] }
                      let trace2 := trace1 ++ [PairStep.putIdentity
                          mainDeviceLID.signalAddressString mainDeviceIdentity true,
                        PairStep.expectDisconnectMark]
                      if !env.sendConfirmOk then
                        some (.sendConfirmError,
                          { store2 with deviceRecord := false },
                          trace2 ++ [.sentPairDeviceSign deviceIdentityDetails.getKeyIndex
                              selfSignedDeviceIdentity false, .storeDelete])
                      else
                        some (.ok, store2,
                          trace2 ++ [.sentPairDeviceSign deviceIdentityDetails.getKeyIndex
                              selfSignedDeviceIdentity true])
              else
                none

/-- Per-session geo info cache (`SessionGeoCache` in client.go). -/
structure SessionGeoCache where
  country : String
  timezone : String
  language : String
  locked : Bool
  deriving DecidableEq, Repr

/-- The mutable client fields touched by the disconnect / reconnect logic:
the active socket handle (`cli.socket`, identified by a handle id), the
expected-disconnect and force-auto-reconnect flags, the pending
response-waiter ids, the consecutive auto-reconnect error counter, the
logged-in flag, and the per-session ephemeral caches cleared on disconnect. -/
structure ClientState where
  socket : Option Nat
  expectedDisconnect : Bool
  forceAutoReconnect : Bool
  responseWaiters : List String
  autoReconnectErrors : Nat
  isLoggedIn : Bool
  pendingFingerprint : Option Nat
  pendingFingerprintSaved : Bool
  sessionGeoCache : Option SessionGeoCache
  delayedMessageRequests : List Nat
  deriving DecidableEq, Repr

namespace Client

/-- `expectDisconnect` from client.go: clear the force-auto-reconnect flag and
set the expected-disconnect flag. -/
def expectDisconnect (s : ClientState) : ClientState :=
  { s with forceAutoReconnect := false, expectedDisconnect := true }

/-- `resetExpectedDisconnect` from client.go. -/
def resetExpectedDisconnect (s : ClientState) : ClientState :=
  { s with forceAutoReconnect := false, expectedDisconnect := false }

/-- `isExpectedDisconnect` from client.go. -/
def isExpectedDisconnect (s : ClientState) : Bool :=
  s.expectedDisconnect

/-- Modelled from the spec: `clearResponseWaiters` is declared in a source
file outside the provided set; per the spec, it force-completes every pending
response waiter with the given disconnect signal, leaving the waiter map
empty. -/
def clearResponseWaiters (s : ClientState) : ClientState :=
  { s with responseWaiters := [] }

/-- Modelled from the spec: `clearDelayedMessageRequests` is declared in a
source file outside the provided set; per the spec, disconnecting clears the
per-session ephemeral caches, so the delayed-message-request cache is left
empty. -/
def clearDelayedMessageRequests (s : ClientState) : ClientState :=
  { s with delayedMessageRequests := [] }

/-- `clearSessionGeoCache` from client.go: sets the cache to nil (a no-op when
it already is). -/
def clearSessionGeoCache (s : ClientState) : ClientState :=
  { s with sessionGeoCache := none }

/-- `unlockedDisconnect` from client.go: when a socket is active, stop it,
clear the handle and fail the pending response waiters; otherwise no-op. -/
def unlockedDisconnect (s : ClientState) : ClientState :=
  match s.socket with
  | some _ => clearResponseWaiters { s with socket := none }
  | none => s

/-- `Disconnect` from client.go: set the expected-disconnect flag, close the
socket, then clear the delayed-message-request cache, the pending fingerprint
and the session geo cache. -/
def Disconnect (s : ClientState) : ClientState :=
  let s1 := unlockedDisconnect (expectDisconnect s)
  let s2 := clearDelayedMessageRequests s1
  let s3 := { s2 with pendingFingerprint := none, pendingFingerprintSaved := false }
  clearSessionGeoCache s3

/-- Actions started by the socket-close callback: dispatching the
`Disconnected` event and spawning the auto-reconnect loop. -/
inductive ClientAction where
  | dispatchDisconnectedEvent
  | startAutoReconnect
  deriving DecidableEq, Repr

/-- `onDisconnect` from client.go, for the socket handle `ns` whose close
callback fired.  When `ns` is still the active socket: clear the handle, fail
the waiters, and — only when the disconnect was not expected — atomically swap
the force-auto-reconnect flag to false and, if its old value was set or the
close was remote-initiated, emit the `Disconnected` event and start the
auto-reconnect loop.  A callback for a stale socket does nothing. -/
def onDisconnect (s : ClientState) (ns : Nat) (remote : Bool) :
    ClientState × List ClientAction :=
  if s.socket = some ns then
    let s1 := clearResponseWaiters { s with socket := none }
    if !isExpectedDisconnect s1 then
      let oldForce := s1.forceAutoReconnect
      let s2 := { s1 with forceAutoReconnect := false }
      if oldForce || remote then
        (s2, [.dispatchDisconnectedEvent, .startAutoReconnect])
      else
        (s2, [])
    else
      (s1, [])
  else
    (s, [])

/-- The pre-attempt sleep of one auto-reconnect iteration, in seconds:
`time.Duration(cli.AutoReconnectErrors) * 2 * time.Second`, computed from the
consecutive-error counter before it is incremented. -/
def autoReconnectDelaySeconds (autoReconnectErrors : Nat) : Nat :=
  autoReconnectErrors * 2

/-- The sleep delays of the auto-reconnect loop, starting from counter value
`e`, for a given list of attempt outcomes (`true` = the `connect` call
succeeded, ending the loop; `false` = it failed and the loop retries).  Each
iteration computes its delay from the current counter and then increments it;
nothing inside the loop resets the counter. -/
def autoReconnectDelays : Nat → List Bool → List Nat
  | _, [] => []
  | e, ok :: rest =>
    let d := autoReconnectDelaySeconds e
    if ok then [d] else d :: autoReconnectDelays (e + 1) rest

/-- The counter-relevant part of `handleConnectSuccess` in connectionevents.go:
a successful authenticated connect resets `AutoReconnectErrors` to 0 and marks
the client logged in (the LID bookkeeping in the rest of the function touches
neither field). -/
def handleConnectSuccess (s : ClientState) : ClientState :=
  { s with autoReconnectErrors := 0, isLoggedIn := true }

end Client

/-- Errors a connection attempt can produce, as classified by
`isRetryableConnectError`: a network error (`exhttp.IsNetworkError`), a
handshake HTTP status error (`socket.ErrWithStatusCode`), or anything else. -/
inductive ConnectError where
  | networkError
  | statusCode (code : Nat)
  | alreadyConnected
  | other (tag : String)
  deriving DecidableEq, Repr

/-- `isRetryableConnectError` from client.go: network errors and handshake
HTTP statuses 408, 500, 501, 502, 503, 504 are retryable; everything else
(including no error) is not. -/
def isRetryableConnectError : Option ConnectError → Bool
  | some .networkError => true
  | some (.statusCode c) =>
      (c == 408) || (c == 500) || (c == 501) || (c == 502) || (c == 503) || (c == 504)
  | _ => false

/-- Observable outcome of `ConnectContext`: the error returned to the caller,
and whether a background `Disconnected` dispatch and auto-reconnect loop were
spawned instead of surfacing the error. -/
structure ConnectOutcome where
  returnedError : Option ConnectError
  dispatchedDisconnected : Bool
  startedAutoReconnect : Bool
  deriving DecidableEq, Repr

/-- `ConnectContext` from client.go (for a non-nil client), as a function of
the result of the underlying `unlockedConnect` attempt and the two policy
flags: a classified-retryable failure with both `InitialAutoReconnect` and
`EnableAutoReconnect` set is swallowed — the caller gets nil while a
background reconnect loop is scheduled; otherwise the error is returned. -/
def ConnectContext (unlockedConnectErr : Option ConnectError)
    (initialAutoReconnect enableAutoReconnect : Bool) : ConnectOutcome :=
  if isRetryableConnectError unlockedConnectErr && initialAutoReconnect && enableAutoReconnect then
    { returnedError := none, dispatchedDisconnected := true, startedAutoReconnect := true }
  else
    { returnedError := unlockedConnectErr,
      dispatchedDisconnected := false, startedAutoReconnect := false }

/-- `handlerQueueSize` from client.go: capacity of the handler queue. -/
def handlerQueueSize : Nat := 2048

/-- State the frame-dispatch path reads: the current number of nodes buffered
in the handler queue and whether the connection context is done. -/
structure FrameState where
  queueLen : Nat
  ctxDone : Bool
  deriving DecidableEq, Repr

/-- What `handleFrame` did with a successfully decoded node. -/
inductive FrameAction where
  | streamEndNoted
  | resolvedPendingRequest
  | enqueuedImmediately
  | droppedConnClosed
  | warnedAndSpawnedBlockingEnqueueTask
  | ignoredAck
  | loggedUnhandled
  deriving DecidableEq, Repr

/-- The dispatch tail of `handleFrame` in client.go, for a successfully
decoded node with the given tag: stream-end frames are only noted; a node
consumed by a pending request-response waiter is done; a node with a
registered tag handler goes through the non-blocking select — enqueue when
the bounded queue has room, otherwise (with a live connection context) log
the ordering warning and spawn the detached blocking enqueue task.  (The Go
select may also take the context-done case; a done context is modelled by the
drop case.)  Unregistered tags other than "ack" are debug-logged. -/
def handleFrame (tag : String) (consumedAsResponse hasHandler : Bool)
    (st : FrameState) : FrameState × FrameAction :=
  if tag = "xmlstreamend" then (st, .streamEndNoted)
  else if consumedAsResponse then (st, .resolvedPendingRequest)
  else if hasHandler then
    if !st.ctxDone && st.queueLen < handlerQueueSize then
      ({ st with queueLen := st.queueLen + 1 }, .enqueuedImmediately)
    else if st.ctxDone then (st, .droppedConnClosed)
    else (st, .warnedAndSpawnedBlockingEnqueueTask)
  else if tag ≠ "ack" then (st, .loggedUnhandled)
  else (st, .ignoredAck)

/-- Behaviour of one registered event handler on a given event: return true
(continue the fan-out), return false (stop propagation), or panic. -/
inductive HandlerBehavior where
  | continues
  | stopsPropagation
  | panics
  deriving DecidableEq, Repr

/-- Observable outcome of `dispatchEvent`: how many handlers were invoked,
whether a handler panic was recovered (and logged with the event type and
stack trace), whether the panic escaped (it never does — the deferred
`recover` catches it), and the returned `handlerFailed` flag. -/
structure DispatchOutcome where
  handlersRun : Nat
  recoveredPanic : Bool
  processCrashed : Bool
  handlerFailed : Bool
  deriving DecidableEq, Repr

/-- Fan-out loop of `dispatchEvent` in client.go over the remaining handlers,
with `n` handlers already invoked.  A panicking handler unwinds the loop; the
deferred function recovers it and logs, so the process does not crash, the
named return value keeps its zero value `false`, and no further handler runs.
A handler returning false makes `dispatchEvent` return true immediately. -/
def dispatchEventFrom : List HandlerBehavior → Nat → DispatchOutcome
  | [], n =>
      { handlersRun := n, recoveredPanic := false, processCrashed := false, handlerFailed := false }
  | b :: rest, n =>
    match b with
    | .panics =>
        { handlersRun := n + 1, recoveredPanic := true, processCrashed := false,
          handlerFailed := false }
    | .stopsPropagation =>
        { handlersRun := n + 1, recoveredPanic := false, processCrashed := false,
          handlerFailed := true }
    | .continues => dispatchEventFrom rest (n + 1)

/-- `dispatchEvent` from client.go, as a function of the behaviour of the
registered handlers on the dispatched event. -/
def dispatchEvent (handlers : List HandlerBehavior) : DispatchOutcome :=
  dispatchEventFrom handlers 0

/-! Concrete fixtures used by the witness theorems. -/

/-- A concrete primary JID. -/
def testJID : JID := ⟨"user", "s.whatsapp.net", 5⟩

/-- A concrete LID with a nonzero device suffix. -/
def testLID : JID := ⟨"liduser", "lid", 7⟩

/-- A signed device identity with well-formed key and signature lengths. -/
def testIdentity : ADVSignedDeviceIdentity :=
  { details := [3, 4], accountSignatureKey := List.replicate 32 9,
    accountSignature := List.replicate 64 8, deviceSignature := [] }

/-- A signed device identity whose account signature key is too short. -/
def testShortKeyIdentity : ADVSignedDeviceIdentity :=
  { details := [3, 4], accountSignatureKey := [1, 2, 3],
    accountSignature := List.replicate 64 8, deviceSignature := [] }

/-- Concrete inner device identity details. -/
def testDetails : ADVDeviceIdentity := { deviceType := some .E2EE, keyIndex := some 1 }

/-- A hosted-account signed-identity container. -/
def testContainer : ADVSignedDeviceIdentityHMAC :=
  { details := [1, 2], hmac := [0], accountType := some .HOSTED }

/-- A pairing environment in which every external call succeeds and every
check passes. -/
def baseTestEnv : PairEnv :=
  { advSecretKey := [7], identityPub := List.replicate 32 1,
    identityPriv := List.replicate 32 2,
    hmacSHA256 := fun _ _ => [0], eccVerify := fun _ _ _ => true,
    eccSign := fun _ _ => List.replicate 64 0,
    parseHMACContainer := fun _ => some testContainer,
    parseSignedIdentity := fun _ => some testIdentity,
    parseIdentityDetails := fun _ => some testDetails,
    marshalIdentity := fun _ => some [9, 9],
    prePairCallback := none, hasSQLStoreContainer := false,
    saveOk := true, putIdentityOk := true, sendConfirmOk := true,
    deviceIdentityBytes := [5], reqID := "req", businessName := "biz", platform := "web",
    jid := testJID, lid := testLID }

/-- The store state of a not-yet-paired device. -/
def emptyStore : DeviceStoreState := { deviceRecord := false, identities := [] }

/-! Helper lemmas shared by the claim theorems. -/

/-- A successful account-signature verification implies the embedded key is
exactly 32 bytes and the signature exactly 64 bytes. -/
theorem verifyAccountSignature_true_lengths {eccV : Bytes → Bytes → Bytes → Bool}
    {di : ADVSignedDeviceIdentity} {pub : Bytes} {hosted : Bool}
    (h : verifyAccountSignature eccV di pub hosted = true) :
    di.accountSignatureKey.length = 32 ∧ di.accountSignature.length = 64 := by
  unfold verifyAccountSignature at h
  split at h
  · exact absurd h (by simp)
  · next hcond =>
      push_neg at hcond
      exact hcond

/-- C2: in `handlePair`, the HMAC-SHA256 over the container's details is
recomputed with the stored advertisement secret as key, with the 2-byte
hosted-account prefix `{0x06,0x05}` fed before the details exactly when the
container's account type is `HOSTED`; whenever the transmitted HMAC differs
from this recomputation, the flow sends pairing error 401 "hmac-mismatch" and
returns the invalid-device-identity-HMAC error with no further effect, and
whenever it matches, that error is never returned. -/
theorem handlePair_hmac_gate (env : PairEnv) (store0 : DeviceStoreState)
    (c : ADVSignedDeviceIdentityHMAC)
    (hparse : env.parseHMACContainer env.deviceIdentityBytes = some c) :
    (env.hmacSHA256 env.advSecretKey
        ((if c.getAccountType = .HOSTED then AdvHostedAccountSignaturePrefixBytes else [])
          ++ c.details) ≠ c.hmac →
      handlePair env store0 =
        some (.invalidDeviceIdentityHMAC, store0, [.sentPairError 401 "hmac-mismatch"]))
    ∧ (env.hmacSHA256 env.advSecretKey
        ((if c.getAccountType = .HOSTED then AdvHostedAccountSignaturePrefixBytes else [])
          ++ c.details) = c.hmac →
      ∀ r st tr, handlePair env store0 = some (r, st, tr) →
        r ≠ PairResult.invalidDeviceIdentityHMAC) := by
  constructor
  · intro hne
    simp only [handlePair, hparse, pairHMACInput]
    rw [if_pos hne]
  · intro heq r st tr h
    simp only [handlePair, hparse, pairHMACInput] at h
    rw [if_neg (not_not_intro heq)] at h
    repeat' split at h
    all_goals try simp only [Option.some.injEq, Prod.mk.injEq] at h
    all_goals try (obtain ⟨hr, -, -⟩ := h; subst hr)
    all_goals simp_all

/-- A pairing environment whose transmitted HMAC does not match the
recomputation. -/
def testEnvHMACMismatch : PairEnv := { baseTestEnv with hmacSHA256 := fun _ _ => [1] }

/-- Witness for C2: a hosted container with a wrong transmitted HMAC makes
`handlePair` send error 401 "hmac-mismatch" and return the HMAC error. -/
theorem handlePair_hmac_gate_witness :
    handlePair testEnvHMACMismatch emptyStore =
      some (.invalidDeviceIdentityHMAC, emptyStore, [.sentPairError 401 "hmac-mismatch"]) :=
  (handlePair_hmac_gate testEnvHMACMismatch emptyStore testContainer rfl).1 (by decide)

/-- C3: the pairing checks are ordered HMAC first, then account signature —
when the container parses, the HMAC matches and the inner structures parse but
the account signature does not verify, `handlePair` sends pairing error 401
"signature-mismatch" and returns the invalid-device-signature error (never the
HMAC error); moreover the verification builds the message
`(account or hosted-account prefix) ‖ details ‖ identity key` and fails
whenever the embedded key is not exactly 32 bytes or the signature not exactly
64 bytes. -/
theorem handlePair_signature_gate (env : PairEnv) (store0 : DeviceStoreState)
    (c : ADVSignedDeviceIdentityHMAC) (di : ADVSignedDeviceIdentity) (dd : ADVDeviceIdentity)
    (hparse : env.parseHMACContainer env.deviceIdentityBytes = some c)
    (hhmac : env.hmacSHA256 env.advSecretKey (pairHMACInput c) = c.hmac)
    (hdi : env.parseSignedIdentity c.details = some di)
    (hdd : env.parseIdentityDetails di.details = some dd) :
    (verifyAccountSignature env.eccVerify di env.identityPub
        (dd.getDeviceType = .HOSTED) = false →
      handlePair env store0 =
        some (.invalidDeviceSignature, store0, [.sentPairError 401 "signature-mismatch"]) ∧
        PairResult.invalidDeviceSignature ≠ PairResult.invalidDeviceIdentityHMAC)
    ∧ (∀ (eccV : Bytes → Bytes → Bytes → Bool) (di2 : ADVSignedDeviceIdentity)
        (pub : Bytes) (hosted : Bool),
        di2.accountSignatureKey.length ≠ 32 ∨ di2.accountSignature.length ≠ 64 →
        verifyAccountSignature eccV di2 pub hosted = false)
    ∧ (∀ (eccV : Bytes → Bytes → Bytes → Bool) (di2 : ADVSignedDeviceIdentity)
        (pub : Bytes) (hosted : Bool),
        verifyAccountSignature eccV di2 pub hosted = true →
        eccV di2.accountSignatureKey
          (concatBytes [(if hosted then AdvHostedAccountSignaturePrefixBytes
              else AdvAccountSignaturePrefixBytes), di2.details, pub])
          di2.accountSignature = true) := by
  refine ⟨fun hv => ⟨?_, by simp⟩, fun eccV di2 pub hosted hlen => ?_, fun eccV di2 pub hosted hv => ?_⟩
  · simp only [handlePair, hparse]
    rw [if_neg (not_not_intro hhmac)]
    simp only [hdi, hdd]
    simp [hv]
  · unfold verifyAccountSignature
    rw [if_pos hlen]
  · unfold verifyAccountSignature at hv
    split at hv
    · exact absurd hv (by simp)
    · exact hv

/-- A pairing environment whose account signature verification fails. -/
def testEnvBadSignature : PairEnv := { baseTestEnv with eccVerify := fun _ _ _ => false }

/-- Witness for C3: with a matching HMAC but a failing signature check,
`handlePair` fails at the signature step with error 401 "signature-mismatch". -/
theorem handlePair_signature_gate_witness :
    handlePair testEnvBadSignature emptyStore =
      some (.invalidDeviceSignature, emptyStore, [.sentPairError 401 "signature-mismatch"]) ∧
    PairResult.invalidDeviceSignature ≠ PairResult.invalidDeviceIdentityHMAC :=
  (handlePair_signature_gate testEnvBadSignature emptyStore testContainer testIdentity
    testDetails rfl (by decide) rfl rfl).1 (by decide)

/-- C10: the unchecked fixed-size casts in the pairing flow never panic —
`verifyAccountSignature` returns false before casting whenever the key is not
32 bytes or the signature not 64 bytes, and `handlePair` (whose `none` result
models the one unguarded `*[32]byte` cast panicking) always returns a value. -/
theorem handlePair_cast_safety :
    (∀ (eccV : Bytes → Bytes → Bytes → Bool) (di : ADVSignedDeviceIdentity)
        (pub : Bytes) (hosted : Bool),
        di.accountSignatureKey.length ≠ 32 ∨ di.accountSignature.length ≠ 64 →
        verifyAccountSignature eccV di pub hosted = false)
    ∧ ∀ (env : PairEnv) (store0 : DeviceStoreState), (handlePair env store0).isSome = true := by
  constructor
  · intro eccV di pub hosted hlen
    unfold verifyAccountSignature
    rw [if_pos hlen]
  · intro env store0
    simp only [handlePair]
    repeat' split
    all_goals simp_all
    next hver hpre hlen =>
      exact absurd (verifyAccountSignature_true_lengths hver).1 hlen

/-- Witness for C10: a short key is rejected by `verifyAccountSignature`, and
`handlePair` returns a value on the all-success environment. -/
theorem handlePair_cast_safety_witness :
    verifyAccountSignature (fun _ _ _ => true) testShortKeyIdentity [] true = false ∧
    (handlePair baseTestEnv emptyStore).isSome = true :=
  ⟨handlePair_cast_safety.1 (fun _ _ _ => true) testShortKeyIdentity [] true
      (Or.inl (by decide)),
    handlePair_cast_safety.2 baseTestEnv emptyStore⟩

/-- C1: whenever `handlePair` persists the device record via `Store.Save` and
then aborts — because the identity-mapping write (`PutIdentity` for the
device-suffix-zeroed LID) failed or because sending the `pair-device-sign`
response failed — it deletes the persisted record (`Store.Delete`) before
returning the error: the save is the first store effect of the trace, a
delete follows it, and the final store has no device record. -/
theorem handlePair_rollback (env : PairEnv) (store0 : DeviceStoreState)
    (r : PairResult) (st : DeviceStoreState) (tr : List PairStep)
    (h : handlePair env store0 = some (r, st, tr))
    (habort : r = .databaseError "failed to store main device identity" ∨
      r = .sendConfirmError) :
    st.deviceRecord = false ∧ tr.head? = some (.storeSave true) ∧
      PairStep.storeDelete ∈ tr := by
  simp only [handlePair] at h
  repeat' split at h
  all_goals try simp only [Option.some.injEq, Prod.mk.injEq] at h
  all_goals try (obtain ⟨hr, hst, htr⟩ := h; subst hr; subst hst; subst htr)
  all_goals simp_all

/-- A pairing environment in which the identity-mapping write fails. -/
def testEnvPutIdentityFail : PairEnv := { baseTestEnv with putIdentityOk := false }

/-- The side-effect trace of `handlePair` when the identity-mapping write
fails: save, LID mapping, failed PutIdentity, rollback delete, error node. -/
def rollbackWitnessTrace : List PairStep :=
  [.storeSave true, .storeLIDPNMapping,
    .putIdentity "liduser:0" (List.replicate 32 9) false, .storeDelete,
    .sentPairError 500 "internal-error"]

/-- Witness for C1: with an injected PutIdentity failure after a successful
save, the flow rolls the device record back. -/
theorem handlePair_rollback_witness :
    emptyStore.deviceRecord = false ∧
    rollbackWitnessTrace.head? = some (.storeSave true) ∧
    PairStep.storeDelete ∈ rollbackWitnessTrace :=
  handlePair_rollback testEnvPutIdentityFail emptyStore
    (.databaseError "failed to store main device identity") emptyStore rollbackWitnessTrace
    (by decide) (Or.inl rfl)

/-- A client state with an active socket, pending waiters and populated
per-session caches. -/
def testConnectedState : ClientState :=
  { socket := some 1, expectedDisconnect := false, forceAutoReconnect := false,
    responseWaiters := ["17-1"], autoReconnectErrors := 3, isLoggedIn := true,
    pendingFingerprint := some 5, pendingFingerprintSaved := true,
    sessionGeoCache := some ⟨"IN", "Asia", "hi", true⟩, delayedMessageRequests := [2] }

/-- Disconnecting always leaves no active socket handle. -/
theorem Disconnect_socket_eq_none (s : ClientState) : (Client.Disconnect s).socket = none := by
  unfold Client.Disconnect Client.clearSessionGeoCache Client.clearDelayedMessageRequests
    Client.unlockedDisconnect Client.clearResponseWaiters Client.expectDisconnect
  cases s.socket <;> simp

/-- C8: `Disconnect` is idempotent — a second call leaves the state of the
first call unchanged — and a single call clears the active socket, sets the
expected-disconnect flag, clears the per-session fingerprint and geo caches,
and (when a socket was active) clears the pending response waiters. -/
theorem Disconnect_idempotent (s : ClientState) :
    Client.Disconnect (Client.Disconnect s) = Client.Disconnect s
    ∧ (Client.Disconnect s).socket = none
    ∧ (Client.Disconnect s).expectedDisconnect = true
    ∧ (Client.Disconnect s).pendingFingerprint = none
    ∧ (Client.Disconnect s).pendingFingerprintSaved = false
    ∧ (Client.Disconnect s).sessionGeoCache = none
    ∧ (Client.Disconnect s).delayedMessageRequests = []
    ∧ (s.socket.isSome = true → (Client.Disconnect s).responseWaiters = []) := by
  unfold Client.Disconnect Client.clearSessionGeoCache Client.clearDelayedMessageRequests
    Client.unlockedDisconnect Client.clearResponseWaiters Client.expectDisconnect
  cases s.socket <;> simp

/-- Witness for C8: idempotence and the cleared fields on a concrete connected
state, with the waiter-clearing hypothesis discharged. -/
theorem Disconnect_idempotent_witness :
    Client.Disconnect (Client.Disconnect testConnectedState) =
      Client.Disconnect testConnectedState ∧
    (Client.Disconnect testConnectedState).responseWaiters = [] :=
  ⟨(Disconnect_idempotent testConnectedState).1,
    (Disconnect_idempotent testConnectedState).2.2.2.2.2.2.2 (by decide)⟩

/-- C4: the socket-close callback for the active socket emits no event and
starts no auto-reconnect when the expected-disconnect flag is set (as
`Disconnect` sets it — fourth conjunct); when the flag is clear and the close
was remote-initiated or the force-reconnect flag was set, it emits exactly one
`Disconnected` event and starts the auto-reconnect loop; a callback for a
socket that is no longer active does nothing. -/
theorem onDisconnect_expected_suppresses (s : ClientState) (ns : Nat) (remote : Bool) :
    (s.socket = some ns → s.expectedDisconnect = true →
      (Client.onDisconnect s ns remote).2 = [])
    ∧ (s.socket = some ns → s.expectedDisconnect = false →
        (s.forceAutoReconnect = true ∨ remote = true) →
        (Client.onDisconnect s ns remote).2 =
          [.dispatchDisconnectedEvent, .startAutoReconnect])
    ∧ (s.socket ≠ some ns → Client.onDisconnect s ns remote = (s, []))
    ∧ (∀ r2, Client.onDisconnect (Client.Disconnect s) ns r2 = (Client.Disconnect s, [])) := by
  refine ⟨fun hs he => ?_, fun hs he hf => ?_, fun hs => ?_, fun r2 => ?_⟩
  · simp [Client.onDisconnect, Client.isExpectedDisconnect, Client.clearResponseWaiters, hs, he]
  · rcases hf with hf | hf <;>
      simp [Client.onDisconnect, Client.isExpectedDisconnect, Client.clearResponseWaiters,
        hs, he, hf]
  · simp [Client.onDisconnect, hs]
  · simp [Client.onDisconnect, Disconnect_socket_eq_none]

/-- A connected state with the expected-disconnect flag set. -/
def testExpectedState : ClientState := { testConnectedState with expectedDisconnect := true }

/-- Witness for C4: expected close → no actions; unexpected remote close →
one `Disconnected` event plus auto-reconnect; stale socket → no-op. -/
theorem onDisconnect_expected_suppresses_witness :
    (Client.onDisconnect testExpectedState 1 true).2 = [] ∧
    (Client.onDisconnect testConnectedState 1 true).2 =
      [.dispatchDisconnectedEvent, .startAutoReconnect] ∧
    Client.onDisconnect testConnectedState 2 true = (testConnectedState, []) :=
  ⟨(onDisconnect_expected_suppresses testExpectedState 1 true).1 (by decide) (by decide),
    (onDisconnect_expected_suppresses testConnectedState 1 true).2.1 (by decide) (by decide)
      (Or.inr rfl),
    (onDisconnect_expected_suppresses testConnectedState 2 true).2.2.1 (by decide)⟩

/-- Each delay of a run of consecutive failed reconnect attempts starting at
counter value `e` is the counter value at that attempt times 2 seconds. -/
theorem autoReconnectDelays_failures_getD (n : Nat) :
    ∀ (e i : Nat), i < n →
      (Client.autoReconnectDelays e (List.replicate n false)).getD i 0 = (e + i) * 2 := by
  induction n with
  | zero => intro e i h; omega
  | succ n ih =>
      intro e i h
      cases i with
      | zero =>
          simp [List.replicate_succ, Client.autoReconnectDelays,
            Client.autoReconnectDelaySeconds]
      | succ i =>
          simp only [List.replicate_succ, Client.autoReconnectDelays,
            Client.autoReconnectDelaySeconds, Bool.false_eq_true, if_false,
            List.getD_cons_succ]
          rw [ih (e + 1) i (by omega)]
          ring

/-- A run of `n` consecutive failed reconnect attempts sleeps `n` times. -/
theorem autoReconnectDelays_failures_length (n : Nat) :
    ∀ e : Nat, (Client.autoReconnectDelays e (List.replicate n false)).length = n := by
  induction n with
  | zero => intro e; simp [Client.autoReconnectDelays]
  | succ n ih =>
      intro e
      simp [List.replicate_succ, Client.autoReconnectDelays, ih]

/-- C5: over N consecutive failed reconnect attempts with no intervening
authenticated connect success (counter starting at 0), the loop sleeps N
times and the wait before the (i+1)-th attempt is i × 2 seconds — the delay
is the consecutive-error counter times 2 computed before the increment — so
the delay sequence 0, 2, 4, … is non-decreasing; only an authenticated
connect success (`handleConnectSuccess`) resets the counter to 0. -/
theorem autoReconnect_backoff (N i : Nat) (hi : i < N) (s : ClientState) :
    (Client.autoReconnectDelays 0 (List.replicate N false)).length = N
    ∧ (Client.autoReconnectDelays 0 (List.replicate N false)).getD i 0 = i * 2
    ∧ (∀ j k, j ≤ k → k < N →
        (Client.autoReconnectDelays 0 (List.replicate N false)).getD j 0 ≤
          (Client.autoReconnectDelays 0 (List.replicate N false)).getD k 0)
    ∧ (Client.handleConnectSuccess s).autoReconnectErrors = 0 := by
  refine ⟨autoReconnectDelays_failures_length N 0, ?_, fun j k hjk hk => ?_, rfl⟩
  · have := autoReconnectDelays_failures_getD N 0 i hi
    simpa using this
  · have h1 := autoReconnectDelays_failures_getD N 0 j (by omega)
    have h2 := autoReconnectDelays_failures_getD N 0 k hk
    rw [h1, h2]
    omega

/-- Witness for C5: for three consecutive failures the delays are 0, 2, 4
seconds — the third attempt waits (3−1) × 2 = 4 seconds. -/
theorem autoReconnect_backoff_witness :
    (Client.autoReconnectDelays 0 (List.replicate 3 false)).length = 3 ∧
    (Client.autoReconnectDelays 0 (List.replicate 3 false)).getD 2 0 = 2 * 2 ∧
    (Client.autoReconnectDelays 0 (List.replicate 3 false)).getD 1 0 ≤
      (Client.autoReconnectDelays 0 (List.replicate 3 false)).getD 2 0 ∧
    (Client.handleConnectSuccess testConnectedState).autoReconnectErrors = 0 :=
  ⟨(autoReconnect_backoff 3 2 (by decide) testConnectedState).1,
    (autoReconnect_backoff 3 2 (by decide) testConnectedState).2.1,
    (autoReconnect_backoff 3 2 (by decide) testConnectedState).2.2.1 1 2 (by decide) (by decide),
    (autoReconnect_backoff 3 2 (by decide) testConnectedState).2.2.2⟩

/-- C6: `ConnectContext` returns nil and schedules the background reconnect
loop exactly for a classified-retryable initial failure (a network error, or
handshake HTTP status 408/500/501/502/503/504) with both
`InitialAutoReconnect` and `EnableAutoReconnect` set; any non-retryable
failure, or a disabled flag, surfaces the error to the caller. -/
theorem ConnectContext_initial_auto_reconnect (e : ConnectError) (ia ea : Bool) :
    (isRetryableConnectError (some e) = true →
      ConnectContext (some e) true true =
        { returnedError := none, dispatchedDisconnected := true, startedAutoReconnect := true })
    ∧ (isRetryableConnectError (some e) = false ∨ ia = false ∨ ea = false →
        ConnectContext (some e) ia ea =
          { returnedError := some e, dispatchedDisconnected := false,
            startedAutoReconnect := false })
    ∧ isRetryableConnectError (some .networkError) = true
    ∧ (∀ c : Nat, isRetryableConnectError (some (.statusCode c)) = true ↔
        (c = 408 ∨ c = 500 ∨ c = 501 ∨ c = 502 ∨ c = 503 ∨ c = 504))
    ∧ isRetryableConnectError (some .alreadyConnected) = false
    ∧ (∀ t, isRetryableConnectError (some (.other t)) = false)
    ∧ isRetryableConnectError none = false := by
  refine ⟨fun hr => ?_, fun hd => ?_, rfl, fun c => ?_, rfl, fun t => rfl, rfl⟩
  · simp [ConnectContext, hr]
  · rcases hd with hd | hd | hd <;> simp [ConnectContext, hd]
  · simp only [isRetryableConnectError, Bool.or_eq_true, beq_iff_eq]
    tauto

/-- Witness for C6: a 503 handshake status with both flags set is swallowed
with a background reconnect; a 403 status is surfaced. -/
theorem ConnectContext_initial_auto_reconnect_witness :
    ConnectContext (some (.statusCode 503)) true true =
      { returnedError := none, dispatchedDisconnected := true, startedAutoReconnect := true } ∧
    ConnectContext (some (.statusCode 403)) true true =
      { returnedError := some (.statusCode 403), dispatchedDisconnected := false,
        startedAutoReconnect := false } :=
  ⟨(ConnectContext_initial_auto_reconnect (.statusCode 503) true true).1 (by decide),
    (ConnectContext_initial_auto_reconnect (.statusCode 403) true true).2.1
      (Or.inl (by decide))⟩

/-- C7: for a decoded node with a registered tag handler that is not consumed
as a pending-request response (and not a stream-end frame), with a live
connection context, `handleFrame` enqueues it immediately when the bounded
queue (capacity 2048) has room, and otherwise logs the ordering warning and
spawns the detached blocking enqueue task — the read path itself never
blocks. -/
theorem handleFrame_enqueue_policy (tag : String) (st : FrameState)
    (hctx : st.ctxDone = false) (htag : tag ≠ "xmlstreamend") :
    (st.queueLen < handlerQueueSize →
      handleFrame tag false true st =
        ({ st with queueLen := st.queueLen + 1 }, .enqueuedImmediately))
    ∧ (handlerQueueSize ≤ st.queueLen →
      handleFrame tag false true st = (st, .warnedAndSpawnedBlockingEnqueueTask))
    ∧ handlerQueueSize = 2048 := by
  refine ⟨fun hlt => ?_, fun hge => ?_, rfl⟩
  · simp [handleFrame, htag, hctx, hlt]
  · simp [handleFrame, htag, hctx, Nat.not_lt.mpr hge]

/-- Witness for C7: a "message" node is enqueued when the queue holds 7
nodes, and triggers the spillover task when it holds 2048. -/
theorem handleFrame_enqueue_policy_witness :
    handleFrame "message" false true ⟨7, false⟩ = (⟨8, false⟩, .enqueuedImmediately) ∧
    handleFrame "message" false true ⟨2048, false⟩ =
      (⟨2048, false⟩, .warnedAndSpawnedBlockingEnqueueTask) :=
  ⟨(handleFrame_enqueue_policy "message" ⟨7, false⟩ rfl (by decide)).1 (by decide),
    (handleFrame_enqueue_policy "message" ⟨2048, false⟩ rfl (by decide)).2.1 (by decide)⟩

/-- Counterexample to C9 as stated: with two registered handlers where the
first panics, the panic is recovered and the process does not crash, but only
one handler runs — the second handler does not receive the event, so a panic
does prevent the remaining handlers from running. -/
theorem dispatchEvent_panic_counterexample :
    (dispatchEvent [HandlerBehavior.panics, HandlerBehavior.continues]).recoveredPanic = true ∧
    (dispatchEvent [HandlerBehavior.panics, HandlerBehavior.continues]).processCrashed = false ∧
    (dispatchEvent [HandlerBehavior.panics, HandlerBehavior.continues]).handlersRun = 1 ∧
    (dispatchEvent [HandlerBehavior.panics, HandlerBehavior.continues]).handlersRun ≠ 2 := by
  decide

/-- Running the fan-out over well-behaved handlers followed by a panicking
one: every handler up to and including the panicking one runs, the panic is
recovered, and the loop stops there. -/
theorem dispatchEventFrom_continues_panics (pre : List HandlerBehavior) :
    ∀ (post : List HandlerBehavior) (n : Nat),
      (∀ b ∈ pre, b = HandlerBehavior.continues) →
      dispatchEventFrom (pre ++ HandlerBehavior.panics :: post) n =
        { handlersRun := n + pre.length + 1, recoveredPanic := true,
          processCrashed := false, handlerFailed := false } := by
  induction pre with
  | nil => intro post n _; simp [dispatchEventFrom]
  | cons b rest ih =>
      intro post n hpre
      have hb : b = HandlerBehavior.continues := hpre b (by simp)
      subst hb
      simp only [List.cons_append, dispatchEventFrom, List.append_eq]
      rw [ih post (n + 1) (fun x hx => hpre x (by simp [hx]))]
      simp only [DispatchOutcome.mk.injEq, List.length_cons]
      refine ⟨by omega, trivial, trivial, trivial⟩

/-- C9 amended: a panic in a registered event handler is caught at the
fan-out boundary (recovered and logged with the event type and stack trace)
and never crashes the process, but it aborts the fan-out for that event —
the handlers registered after the panicking one do not receive it. -/
theorem dispatchEvent_panic_recovered (pre post : List HandlerBehavior)
    (hpre : ∀ b ∈ pre, b = HandlerBehavior.continues) :
    (dispatchEvent (pre ++ HandlerBehavior.panics :: post)).recoveredPanic = true
    ∧ (dispatchEvent (pre ++ HandlerBehavior.panics :: post)).processCrashed = false
    ∧ (dispatchEvent (pre ++ HandlerBehavior.panics :: post)).handlersRun = pre.length + 1 := by
  unfold dispatchEvent
  rw [dispatchEventFrom_continues_panics pre post 0 hpre]
  simp

/-- Witness for the amended C9: one well-behaved handler, a panicking one and
a later one — the panic is recovered, nothing crashes, and exactly the first
two handlers run. -/
theorem dispatchEvent_panic_recovered_witness :
    (dispatchEvent ([HandlerBehavior.continues] ++
        HandlerBehavior.panics :: [HandlerBehavior.continues])).recoveredPanic = true ∧
    (dispatchEvent ([HandlerBehavior.continues] ++
        HandlerBehavior.panics :: [HandlerBehavior.continues])).processCrashed = false ∧
    (dispatchEvent ([HandlerBehavior.continues] ++
        HandlerBehavior.panics :: [HandlerBehavior.continues])).handlersRun =
      [HandlerBehavior.continues].length + 1 :=
  dispatchEvent_panic_recovered [HandlerBehavior.continues] [HandlerBehavior.continues]
    (by decide)

end Whatsmeow
